import Mathlib

/-!
Shallow embedding of the pulsar-companion CLI core (ArgumentParser.js,
PulsarManager / PulsarConsumer / ConfigManager, config.js) and proofs of the
frozen claims about it.

JavaScript-specific behaviour is modelled explicitly:
* `-1` sentinel indices from `Array.prototype.indexOf` are kept as `Int`;
* string falsiness (`undefined`/`null`/`""` are falsy) is modelled on
  `Option String`;
* `parseInt(v) || default` maps both `NaN` and `0` to the default;
* `Date.parse` is modelled on the ISO-8601 UTC subset the tool documents.
-/

namespace PulsarCompanion

/-- The recognized CLI parameters, i.e. the keys of `this.params` in the
`ArgumentParser` constructor. -/
inductive Param
  | compression
  | help
  | key
  | send
  | since
  | subscription
  | threads
  | topic
  | type
  | version
deriving DecidableEq, Repr

/-- The keys of `this.params` in the insertion order of the object literal in
the `ArgumentParser` constructor; `Object.entries` iterates in this order. -/
def paramList : List Param :=
  [.compression, .help, .key, .send, .since, .subscription, .threads, .topic,
   .type, .version]

/-- The three execution modes (the keys of `MODES` in ArgumentParser.js). -/
inductive Mode
  | PRODUCER
  | CONSUMER
  | READER
deriving DecidableEq, Repr

-- `CONFIG` from config.js (the fields the embedded core reads).
namespace CONFIG

def defaultCompression : String := "NONE"

def defaultKey : String := "default"

def defaultReadPosition : String := "latest"

def defaultThreads : Int := 1

def defaultTopic : String := "pulsar_companion"

def defaultType : String := "Exclusive"

def validCompressionTypes : List String := ["NONE", "LZ4", "ZLIB", "ZSTD", "SNAPPY"]

def validReadPositions : List String := ["earliest", "latest"]

def validTypes : List String := ["Exclusive", "Failover", "Shared", "KeyShared"]

end CONFIG

/-- `MODES[mode].required` from ArgumentParser.js. -/
def MODES.required : Mode → List Param
  | .PRODUCER => [.send]
  | .CONSUMER => []
  | .READER => [.since]

/-- `MODES[mode].optional` from ArgumentParser.js. -/
def MODES.optional : Mode → List Param
  | .PRODUCER => [.compression, .key, .threads, .topic]
  | .CONSUMER => [.subscription, .topic, .type]
  | .READER => [.topic]

/-- The allow-list used in `validateArgs`:
`[...mode.required, ...mode.optional, 'help', 'version']`. -/
def allowedParams (m : Mode) : List Param :=
  MODES.required m ++ MODES.optional m ++ [.help, .version]

/-- JavaScript `args.indexOf(s)`: index of the first occurrence, `-1` if
absent. -/
def jsIndexOf (args : List String) (s : String) : Int :=
  match args.findIdx? (· == s) with
  | some i => (i : Int)
  | none => -1

/-- `this.params[p]` from the `ArgumentParser` constructor: the index of the
flag in the argument list (`Math.max` of the indices of its spellings). -/
def paramIndex (args : List String) : Param → Int
  | .compression => max (jsIndexOf args "--compression") (jsIndexOf args "-c")
  | .help => max (jsIndexOf args "--help") (jsIndexOf args "-h")
  | .key => jsIndexOf args "--key"
  | .send => jsIndexOf args "--send"
  | .since => jsIndexOf args "--since"
  | .subscription => max (jsIndexOf args "--sub") (jsIndexOf args "-s")
  | .threads => max (jsIndexOf args "--threads") (jsIndexOf args "-t")
  | .topic => jsIndexOf args "--topic"
  | .type => jsIndexOf args "--type"
  | .version => max (jsIndexOf args "--version") (jsIndexOf args "-v")

/-- `hasParam(param)`: `this.params[param] !== -1`. -/
def hasParam (args : List String) (p : Param) : Bool :=
  paramIndex args p != -1

/-- Model of JavaScript `String.prototype.trim`: strip leading and trailing
whitespace. -/
def jsTrim (s : String) : String :=
  ⟨(((s.data.dropWhile Char.isWhitespace).reverse.dropWhile
      Char.isWhitespace).reverse)⟩

/-- `getValue(param)`: the token following the flag, trimmed
(`this.args[this.params[param] + 1]?.trim()`), `none` when the flag is
absent or has no following token. -/
def getValue (args : List String) (p : Param) : Option String :=
  if paramIndex args p == -1 then none
  else (args.get? ((paramIndex args p).toNat + 1)).map jsTrim

/-- The raw (untrimmed) token following the flag, used by the
missing-value check (`this.args[index + 1]`). -/
def rawNext (args : List String) (p : Param) : Option String :=
  if paramIndex args p == -1 then none
  else args.get? ((paramIndex args p).toNat + 1)

/-- JavaScript falsiness of `this.args[index + 1]`: `undefined` and the empty
string are falsy. -/
def isFalsyOpt : Option String → Bool
  | none => true
  | some s => s == ""

/-- `determineMode()`: `send` presence wins, then `since`, default consumer. -/
def determineMode (args : List String) : Mode :=
  if hasParam args .send then .PRODUCER
  else if hasParam args .since then .READER
  else .CONSUMER

/-- The distinct errors `validateArgs` / `validateSpecificArgs` can throw,
identified by kind (the JS code throws `Error` with distinct messages). -/
inductive VError
  | missingRequiredParam (p : Param) (m : Mode)
  | paramNotAllowed (p : Param) (m : Mode)
  | missingValue (p : Param)
  | invalidThreadCount
  | invalidCompressionType (c : String)
  | invalidReadPosition (v : String)
  | invalidSinceValue
  | invalidSubscriptionType (v : String)
deriving DecidableEq, Repr

/-- ASCII model of a JavaScript character's `toUpperCase`. -/
def jsCharUpper (c : Char) : Char :=
  if 97 ≤ c.toNat ∧ c.toNat ≤ 122 then Char.ofNat (c.toNat - 32) else c

/-- ASCII model of a JavaScript character's `toLowerCase`. -/
def jsCharLower (c : Char) : Char :=
  if 65 ≤ c.toNat ∧ c.toNat ≤ 90 then Char.ofNat (c.toNat + 32) else c

/-- Model of JavaScript `String.prototype.toUpperCase` (ASCII range). -/
def jsToUpperCase (s : String) : String :=
  ⟨s.data.map jsCharUpper⟩

/-- Model of JavaScript `String.prototype.toLowerCase` (ASCII range). -/
def jsToLowerCase (s : String) : String :=
  ⟨s.data.map jsCharLower⟩

/-- Decimal digit predicate used by the `parseInt` model. -/
def isDigitBase (base : Nat) (c : Char) : Bool :=
  if base == 16 then
    c.isDigit || ('a' ≤ c && c ≤ 'f') || ('A' ≤ c && c ≤ 'F')
  else
    c.isDigit

/-- Numeric value of a (hex) digit character. -/
def digitVal (c : Char) : Nat :=
  if c.isDigit then c.toNat - 48
  else if 'a' ≤ c && c ≤ 'f' then c.toNat - 87
  else c.toNat - 55

/-- Model of JavaScript `parseInt(s)` (radix unspecified): skip leading
whitespace, optional sign, `0x`/`0X` selects base 16, then the maximal prefix
of digits; no digit gives `NaN`, modelled as `none`. -/
def jsParseInt (s : String) : Option Int :=
  let cs := s.data.dropWhile Char.isWhitespace
  let (sign, cs₁) : Int × List Char :=
    match cs with
    | '-' :: rest => (-1, rest)
    | '+' :: rest => (1, rest)
    | _ => (1, cs)
  let (base, cs₂) : Nat × List Char :=
    match cs₁ with
    | '0' :: 'x' :: rest => (16, rest)
    | '0' :: 'X' :: rest => (16, rest)
    | _ => (10, cs₁)
  let ds := cs₂.takeWhile (isDigitBase base)
  if ds.isEmpty then none
  else some (sign * (ds.foldl (fun a c => a * base + digitVal c) 0 : Nat))

/-- `getThreads()`: `parseInt(this.getValue('threads')) || CONFIG.defaultThreads`.
JavaScript `||` replaces both `NaN` (parse failure, including `parseInt(null)`
when the flag is absent) and `0` by the default. -/
def getThreads (args : List String) : Int :=
  match getValue args .threads with
  | none => CONFIG.defaultThreads
  | some v =>
    match jsParseInt v with
    | none => CONFIG.defaultThreads
    | some n => if n = 0 then CONFIG.defaultThreads else n

/-- `getCompression()`:
`(this.getValue('compression') || CONFIG.defaultCompression).toUpperCase()`. -/
def getCompression (args : List String) : String :=
  jsToUpperCase
    (match getValue args .compression with
     | some v => if v = "" then CONFIG.defaultCompression else v
     | none => CONFIG.defaultCompression)

/-- `getReadPosition()`: `this.getValue('topic') || CONFIG.defaultReadPosition`.
(The source really reads the `--topic` value here.) -/
def getReadPosition (args : List String) : String :=
  match getValue args .topic with
  | some v => if v = "" then CONFIG.defaultReadPosition else v
  | none => CONFIG.defaultReadPosition

/-- `getSubscriptionType()`: a `key` flag forces `KeyShared` (with a console
warning, not modelled); otherwise the requested `--type` if valid (throwing on
an invalid one), else the default. -/
def getSubscriptionType (args : List String) : Except VError String :=
  if hasParam args .key then .ok "KeyShared"
  else
    match getValue args .type with
    | some v =>
      if v = "" then .ok CONFIG.defaultType
      else if v ∈ CONFIG.validTypes then .ok v
      else .error (.invalidSubscriptionType v)
    | none => .ok CONFIG.defaultType

/-- Leap-year test (Gregorian). -/
def isLeapYear (y : Nat) : Bool :=
  (y % 4 == 0 && y % 100 != 0) || y % 400 == 0

/-- Number of days of a month. -/
def daysInMonth (y mo : Nat) : Nat :=
  if mo == 2 then (if isLeapYear y then 29 else 28)
  else if mo == 4 || mo == 6 || mo == 9 || mo == 11 then 30
  else 31

/-- Days from the Unix epoch (1970-01-01) to the civil date `y-mo-d`
(standard days-from-civil computation); `y ≥ 1` is ensured by the caller. -/
def epochDays (y mo d : Nat) : Int :=
  let yAdj := if mo ≤ 2 then y - 1 else y
  let era := yAdj / 400
  let yoe := yAdj % 400
  let mp := if mo ≤ 2 then mo + 9 else mo - 3
  let doy := (153 * mp + 2) / 5 + (d - 1)
  let doe := yoe * 365 + yoe / 4 - yoe / 100 + doy
  (era * 146097 + doe : Int) - 719468

/-- Epoch milliseconds of a validated UTC civil date-time. -/
def utcMillis (y mo d hh mi ss : Nat) : Int :=
  epochDays y mo d * 86400000 + ((hh * 3600 + mi * 60 + ss) * 1000 : Nat)

/-- Millisecond value of digit characters `y₁y₂y₃y₄-m₁m₂-d₁d₂` plus a time of
day, with range validation; `none` models an invalid date (`NaN`). -/
def civilFromDigits (y₁ y₂ y₃ y₄ m₁ m₂ d₁ d₂ : Char) (hh mi ss : Nat) :
    Option Int :=
  if ([y₁, y₂, y₃, y₄, m₁, m₂, d₁, d₂].all Char.isDigit) then
    let y := 1000 * (y₁.toNat - 48) + 100 * (y₂.toNat - 48) +
             10 * (y₃.toNat - 48) + (y₄.toNat - 48)
    let mo := 10 * (m₁.toNat - 48) + (m₂.toNat - 48)
    let d := 10 * (d₁.toNat - 48) + (d₂.toNat - 48)
    if 1 ≤ y ∧ 1 ≤ mo ∧ mo ≤ 12 ∧ 1 ≤ d ∧ d ≤ daysInMonth y mo ∧
       hh ≤ 23 ∧ mi ≤ 59 ∧ ss ≤ 59 then
      some (utcMillis y mo d hh mi ss)
    else none
  else none

/-- Model of JavaScript `Date.parse` / `new Date(s).getTime()` on the
ISO 8601 UTC subset this tool documents (`YYYY-MM-DDTHH:MM:SSZ` and the
date-only `YYYY-MM-DD`, both interpreted as UTC); every other shape is mapped
to `NaN`, modelled as `none`. -/
def jsDateParse (s : String) : Option Int :=
  match s.data with
  | [y₁, y₂, y₃, y₄, '-', m₁, m₂, '-', d₁, d₂] =>
    civilFromDigits y₁ y₂ y₃ y₄ m₁ m₂ d₁ d₂ 0 0 0
  | [y₁, y₂, y₃, y₄, '-', m₁, m₂, '-', d₁, d₂, 'T',
     h₁, h₂, ':', n₁, n₂, ':', s₁, s₂, 'Z'] =>
    if ([h₁, h₂, n₁, n₂, s₁, s₂].all Char.isDigit) then
      civilFromDigits y₁ y₂ y₃ y₄ m₁ m₂ d₁ d₂
        (10 * (h₁.toNat - 48) + (h₂.toNat - 48))
        (10 * (n₁.toNat - 48) + (n₂.toNat - 48))
        (10 * (s₁.toNat - 48) + (s₂.toNat - 48))
    else none
  | _ => none

/-- First-error combinator: the first thrown error wins (a JS `throw`
escapes the rest of the method). -/
def firstErr (a : Option VError) (b : Option VError) : Option VError :=
  match a with
  | some e => some e
  | none => b

/-- The required-parameter loop of `validateArgs`. -/
def requiredCheck (args : List String) : Option VError :=
  ((MODES.required (determineMode args)).find? (fun q => !(hasParam args q))).map
    (fun q => VError.missingRequiredParam q (determineMode args))

/-- The allowed-parameter loop of `validateArgs`: the first supplied parameter
outside `required ∪ optional ∪ {help, version}` is rejected. -/
def allowedCheck (args : List String) : Option VError :=
  (paramList.find?
      (fun q => hasParam args q &&
        decide (q ∉ allowedParams (determineMode args)))).map
    (fun q => VError.paramNotAllowed q (determineMode args))

/-- The missing-value loop of `validateArgs`: a present flag whose following
raw token is falsy (absent or empty), except `help`/`version`. -/
def missingValueCheck (args : List String) : Option VError :=
  (paramList.find?
      (fun q =>
        hasParam args q && isFalsyOpt (rawNext args q) &&
        !(q == Param.help || q == Param.version))).map
    (fun q => VError.missingValue q)

/-- `validateSpecificArgs` step 1: the thread-count check. The value tested is
`getThreads()`, which has already replaced `NaN` and `0` by the default, so
only a negative parse result can fail here. -/
def threadsCheck (args : List String) : Option VError :=
  if getThreads args ≠ 0 ∧ getThreads args < 1 then some .invalidThreadCount
  else none

/-- `validateSpecificArgs` step 2: the compression check, performed on
`getCompression()` (already defaulted and uppercased). -/
def compressionCheck (args : List String) : Option VError :=
  if getCompression args ≠ "" ∧
     jsToUpperCase (getCompression args) ∉ CONFIG.validCompressionTypes then
    some (.invalidCompressionType (getCompression args))
  else none

/-- `validateSpecificArgs` step 3: the "read position" check — the source
reads `this.getValue('topic')` and requires it to be `earliest`/`latest`. -/
def readPositionCheck (args : List String) : Option VError :=
  match getValue args .topic with
  | some v =>
    if v ≠ "" ∧ v ∉ CONFIG.validReadPositions then
      some (.invalidReadPosition v)
    else none
  | none => none

/-- `validateSpecificArgs` step 4: the `--since` check — the sentinels
`earliest`/`latest` (case-insensitively) or a parseable timestamp. -/
def sinceCheck (args : List String) : Option VError :=
  match getValue args .since with
  | some v =>
    if v ≠ "" then
      if jsToLowerCase v ∉ (["earliest", "latest"] : List String) then
        match jsDateParse v with
        | none => some .invalidSinceValue
        | some _ => none
      else none
    else none
  | none => none

/-- `validateSpecificArgs` step 5: the `--type` check (case-sensitive enum). -/
def typeCheck (args : List String) : Option VError :=
  match getValue args .type with
  | some v =>
    if v ≠ "" ∧ v ∉ CONFIG.validTypes then
      some (.invalidSubscriptionType v)
    else none
  | none => none

/-- `validateSpecificArgs()`: the five semantic checks, first throw wins. -/
def validateSpecificArgs (args : List String) : Option VError :=
  firstErr (threadsCheck args)
    (firstErr (compressionCheck args)
      (firstErr (readPositionCheck args)
        (firstErr (sinceCheck args) (typeCheck args))))

/-- The error-producing part of `validateArgs` (after the help/version
short-circuits): required-parameter loop, allowed-parameter loop,
missing-value loop, then `validateSpecificArgs`. -/
def validateCore (args : List String) : Option VError :=
  firstErr (requiredCheck args)
    (firstErr (allowedCheck args)
      (firstErr (missingValueCheck args) (validateSpecificArgs args)))

/-- The four ways `validateArgs()` can finish: help or version display (the
process exits 0), a thrown validation error, or normal return. -/
inductive ValidationOutcome
  | helpShown
  | versionShown
  | error (e : VError)
  | ok
deriving DecidableEq, Repr

/-- `validateArgs()`: help wins, then version, then the validation chain. -/
def validateArgs (args : List String) : ValidationOutcome :=
  if hasParam args .help then .helpShown
  else if hasParam args .version then .versionShown
  else
    match validateCore args with
    | some e => .error e
    | none => .ok

/-- The value `getSinceValue()` returns: a lowercased sentinel string or a
number (`new Date(since).getTime()`, which is `NaN` — modelled `num none` —
for an unparseable string). -/
inductive JsSince
  | str (s : String)
  | num (t : Option Int)
deriving DecidableEq, Repr

/-- `getSinceValue()`: `null` when `--since` is absent or its value is falsy;
the lowercased value if it is a sentinel; otherwise its timestamp. -/
def getSinceValue (args : List String) : Option JsSince :=
  match getValue args .since with
  | none => none
  | some v =>
    if v = "" then none
    else if jsToLowerCase v ∈ (["earliest", "latest"] : List String) then
      some (.str (jsToLowerCase v))
    else some (.num (jsDateParse v))

/-- `Pulsar.MessageId.earliest()` / `Pulsar.MessageId.latest()`. -/
inductive MessageIdStart
  | earliest
  | latest
deriving DecidableEq, Repr

/-- Observable outcome of `PulsarConsumer.createReader`: the
`startMessageId` the reader is created with, and the timestamp passed to
`reader.seekTimestamp` when a seek is performed. -/
structure ReaderCreation where
  startMessageId : MessageIdStart
  seek : Option Int
deriving DecidableEq, Repr

/-- `PulsarConsumer.createReader(topicName, sinceValue)` at wall-clock `now`
(epoch ms): a string since-value selects the start sentinel; a numeric one
starts at `latest` and then seeks back only when the timestamp is strictly
before `now` (`sinceValue < now` is false for `NaN`). The function is total:
a future timestamp degrades to `latest` without error. -/
def createReader (sinceValue : JsSince) (now : Int) : ReaderCreation :=
  match sinceValue with
  | .str s =>
    { startMessageId := if s = "earliest" then .earliest else .latest
      seek := none }
  | .num t =>
    { startMessageId := .latest
      seek :=
        match t with
        | some ts => if ts < now then some ts else none
        | none => none }

/-- The reader the orchestrator creates in `--since` mode:
`createConsumer(null, argParser.getSinceValue())` ends in
`createReader(topicName, this.argParser.getSinceValue())`. -/
def readerCreation (args : List String) (now : Int) : Option ReaderCreation :=
  (getSinceValue args).map (fun sv => createReader sv now)

/-- Model of JavaScript `String.prototype.startsWith`. -/
def jsStartsWith (s t : String) : Bool :=
  t.data.isPrefixOf s.data

/-- Model of JavaScript `String.prototype.endsWith`. -/
def jsEndsWith (s t : String) : Bool :=
  t.data.isSuffixOf s.data

/-- The namespace normalization in `ConfigManager.loadUserConfig`: append a
trailing `/` if absent, then prepend `persistent://` if absent. -/
def normalizeNamespace (ns : String) : String :=
  let ns₁ := if jsEndsWith ns "/" then ns else ns ++ "/"
  if jsStartsWith ns₁ "persistent://" then ns₁ else "persistent://" ++ ns₁

/-- `PulsarManager.getTopicName()` with the raw configured namespace `ns`:
the normalized namespace concatenated with
`this.argParser.getValue('topic') || this.config.defaultTopic`. -/
def getTopicName (ns : String) (args : List String) : String :=
  let suffix :=
    match getValue args .topic with
    | some v => if v = "" then CONFIG.defaultTopic else v
    | none => CONFIG.defaultTopic
  normalizeNamespace ns ++ suffix

/-- Whether a created resource's `close()` call succeeds or rejects. -/
inductive CloseBehavior
  | succeeds
  | fails
deriving DecidableEq, Repr

/-- The fields of `PulsarManager` that `cleanup()` inspects: each of
`this.producer` / `this.consumer` / `this.client` is `none` when never
created, or carries the behaviour of its `close()` call. -/
structure ManagerState where
  producer : Option CloseBehavior
  consumer : Option CloseBehavior
  client : Option CloseBehavior
deriving DecidableEq, Repr

/-- `PulsarManager.cleanup()`: guard-then-`await close()` for producer,
consumer, client, in that order. The result records the closes attempted (in
order) and the error propagated by the first rejecting close; a rejected
`await` aborts the remaining closes, exactly as in the source. -/
def cleanup (s : ManagerState) : List String × Option String :=
  match s.producer with
  | some .fails => (["producer"], some "producer")
  | p =>
    let l₁ : List String := match p with | some _ => ["producer"] | none => []
    match s.consumer with
    | some .fails => (l₁ ++ ["consumer"], some "consumer")
    | c =>
      let l₂ := l₁ ++ (match c with | some _ => ["consumer"] | none => [])
      match s.client with
      | some .fails => (l₂ ++ ["client"], some "client")
      | k => (l₂ ++ (match k with | some _ => ["client"] | none => []), none)

/-- The close order the specification describes: every created resource, in
producer, consumer, client order (stated from the spec's words, to be compared
with `cleanup`). -/
def expectedCloseOrder (s : ManagerState) : List String :=
  (match s.producer with | some _ => ["producer"] | none => []) ++
  (match s.consumer with | some _ => ["consumer"] | none => []) ++
  (match s.client with | some _ => ["client"] | none => [])

/-- Outcome of one iteration of the receive loop: the awaited
`receive`/`readNext` (together with `handleMessage`) either yields a message
or throws an error with a `name`. -/
inductive RecvEvent (μ : Type)
  | msg (m : μ)
  | err (name : String)
deriving DecidableEq, Repr

/-- `PulsarConsumer.receiveMessages()` over a finite trace of iteration
outcomes: a `TimeoutError` is swallowed and the loop immediately retries; any
other error terminates the loop and propagates. The result is the list of
messages handled and the propagated error, `none` meaning the loop is still
running when the trace ends (the loop has no normal exit). -/
def receiveMessages {μ : Type} : List (RecvEvent μ) → List μ × Option String
  | [] => ([], none)
  | .msg m :: rest =>
    let r := receiveMessages rest
    (m :: r.1, r.2)
  | .err n :: rest =>
    if n = "TimeoutError" then receiveMessages rest else ([], some n)

/-! Helper lemmas. -/

theorem firstErr_eq_none {a b : Option VError} :
    firstErr a b = none ↔ a = none ∧ b = none := by
  cases a <;> simp [firstErr]

theorem mem_paramList (p : Param) : p ∈ paramList := by
  cases p <;> simp [paramList]

theorem requiredCheck_eq_none (args : List String) :
    requiredCheck args = none := by
  unfold requiredCheck determineMode
  by_cases hs : hasParam args .send = true
  · simp [hs, MODES.required]
  · by_cases hi : hasParam args .since = true
    · simp [hs, hi, MODES.required]
    · simp [hs, hi, MODES.required]

theorem validateCore_checks (args : List String)
    (h : validateCore args = none) :
    requiredCheck args = none ∧ allowedCheck args = none ∧
    missingValueCheck args = none ∧ threadsCheck args = none ∧
    compressionCheck args = none ∧ readPositionCheck args = none ∧
    sinceCheck args = none ∧ typeCheck args = none := by
  unfold validateCore validateSpecificArgs at h
  simp only [firstErr_eq_none] at h
  tauto

theorem toNat_ofNat_of_lt {n : Nat} (h : n < 55296) :
    (Char.ofNat n).toNat = n := by
  have hv : Nat.isValidChar n := Or.inl h
  simp only [Char.ofNat, hv, dite_true, dif_pos]
  simp only [Char.ofNatAux, Char.toNat, UInt32.toNat]
  simp [BitVec.toNat_ofNatLt]

theorem jsCharUpper_idem (c : Char) :
    jsCharUpper (jsCharUpper c) = jsCharUpper c := by
  unfold jsCharUpper
  by_cases h : 97 ≤ c.toNat ∧ c.toNat ≤ 122
  · rw [if_pos h]
    have h1 : (Char.ofNat (c.toNat - 32)).toNat = c.toNat - 32 :=
      toNat_ofNat_of_lt (by omega)
    have hcond : ¬(97 ≤ (Char.ofNat (c.toNat - 32)).toNat ∧
        (Char.ofNat (c.toNat - 32)).toNat ≤ 122) := by
      rw [h1]; omega
    rw [if_neg hcond]
  · rw [if_neg h, if_neg h]

theorem map_jsCharUpper_idem (l : List Char) :
    (l.map jsCharUpper).map jsCharUpper = l.map jsCharUpper := by
  induction l with
  | nil => rfl
  | cons c cs ih => simp [ih, jsCharUpper_idem]

theorem jsToUpperCase_idem (s : String) :
    jsToUpperCase (jsToUpperCase s) = jsToUpperCase s :=
  congrArg String.mk (map_jsCharUpper_idem s.data)

theorem jsToUpperCase_ne_empty {s : String} (h : s ≠ "") :
    jsToUpperCase s ≠ "" := by
  intro hc
  apply h
  cases s with
  | mk l =>
    cases l with
    | nil => rfl
    | cons c cs =>
      exact absurd (congrArg String.data hc) (by simp [jsToUpperCase])

/-! Claim theorems. -/

/-- C4: mode resolution is deterministic and total — `send` presence resolves
to `PRODUCER` regardless of `since`; otherwise `since` presence resolves to
`READER`; otherwise `CONSUMER`. `determineMode` is a total function, so no
error is raised at this stage. -/
theorem determineMode_total (args : List String) :
    (hasParam args .send = true → determineMode args = .PRODUCER) ∧
    (hasParam args .send = false → hasParam args .since = true →
      determineMode args = .READER) ∧
    (hasParam args .send = false → hasParam args .since = false →
      determineMode args = .CONSUMER) := by
  refine ⟨fun h => ?_, fun h₁ h₂ => ?_, fun h₁ h₂ => ?_⟩ <;>
    simp [determineMode, *]

/-- Witness for C4: with both `--send` and `--since` supplied, the resolved
mode is `PRODUCER`. -/
theorem determineMode_total_witness :
    determineMode ["--send", "hi", "--since", "earliest"] = .PRODUCER :=
  (determineMode_total ["--send", "hi", "--since", "earliest"]).1 (by decide)

/-- C5: when neither help nor version is supplied (those short-circuit with a
display and exit 0 before validation), any supplied recognized flag outside
`required(mode) ∪ optional(mode) ∪ {help, version}` makes `validateArgs`
throw a `paramNotAllowed` (mode-violation) error — the error thrown is the
mode violation for the first such flag in the iteration order of
`this.params`. In particular `--send … --since X` fails this way. -/
theorem disallowed_flag_rejected (args : List String) (p : Param)
    (hh : hasParam args .help = false) (hv : hasParam args .version = false)
    (hp : hasParam args p = true)
    (hna : p ∉ allowedParams (determineMode args)) :
    ∃ q : Param, hasParam args q = true ∧
      q ∉ allowedParams (determineMode args) ∧
      validateArgs args = .error (.paramNotAllowed q (determineMode args)) := by
  have hfind : paramList.find?
      (fun q => hasParam args q &&
        decide (q ∉ allowedParams (determineMode args))) ≠ none := by
    intro hnone
    rw [List.find?_eq_none] at hnone
    have := hnone p (mem_paramList p)
    simp [hp, hna] at this
  obtain ⟨q, hq⟩ := Option.ne_none_iff_exists'.mp hfind
  have hpred := List.find?_some hq
  simp only [Bool.and_eq_true, decide_eq_true_eq] at hpred
  have hall : allowedCheck args =
      some (.paramNotAllowed q (determineMode args)) := by
    unfold allowedCheck
    rw [hq]
    rfl
  have hcore : validateCore args =
      some (.paramNotAllowed q (determineMode args)) := by
    unfold validateCore
    rw [requiredCheck_eq_none, hall]
    rfl
  refine ⟨q, hpred.1, hpred.2, ?_⟩
  simp [validateArgs, hh, hv, hcore]

/-- Witness for C5: `--send m --since x` (Send mode) is rejected with a
mode-violation error. -/
theorem disallowed_flag_rejected_witness :
    ∃ q : Param, hasParam ["--send", "m", "--since", "x"] q = true ∧
      q ∉ allowedParams (determineMode ["--send", "m", "--since", "x"]) ∧
      validateArgs ["--send", "m", "--since", "x"] =
        .error (.paramNotAllowed q
          (determineMode ["--send", "m", "--since", "x"])) :=
  disallowed_flag_rejected ["--send", "m", "--since", "x"] .since
    (by decide) (by decide) (by decide) (by decide)

/-- C1 (amended): when help and version are absent and `--topic` carries a
following value whose trimmed form is nonempty and differs from `earliest`
and `latest`, `validateArgs` throws an error (when no earlier check fails
first, it is the `Invalid read position` error, as the witness shows) — so
any ordinary topic name supplied via `--topic` is rejected during validation,
before any session is created. The original claim, quantifying over the raw
following value and demanding it be *exactly* `earliest`/`latest`, fails
because `getValue` trims the token first (see the counterexample). -/
theorem topic_readPosition_rejection (args : List String) (v : String)
    (hh : hasParam args .help = false) (hv : hasParam args .version = false)
    (ht : getValue args .topic = some v) (hne : v ≠ "")
    (he : v ≠ "earliest") (hl : v ≠ "latest") :
    ∃ e, validateArgs args = .error e := by
  cases hcore : validateCore args with
  | some e => exact ⟨e, by simp [validateArgs, hh, hv, hcore]⟩
  | none =>
    exfalso
    have hrp := (validateCore_checks args hcore).2.2.2.2.2.1
    unfold readPositionCheck at hrp
    rw [ht] at hrp
    have hmem : v ∉ CONFIG.validReadPositions := by
      simp [CONFIG.validReadPositions, he, hl]
    simp [hne, hmem] at hrp

/-- Witness for C1 (amended): `--topic orders` is rejected, with the
`Invalid read position: orders` error. -/
theorem topic_readPosition_rejection_witness :
    (∃ e, validateArgs ["--topic", "orders"] = .error e) ∧
    validateArgs ["--topic", "orders"] =
      .error (.invalidReadPosition "orders") :=
  ⟨topic_readPosition_rejection ["--topic", "orders"] "orders"
      (by decide) (by decide) (by decide) (by decide) (by decide) (by decide),
    by decide⟩

/-- Counterexample to C1 as stated: the value following `--topic` is
`" earliest "`, which is not exactly the string `earliest` or `latest`, yet
`validateArgs` succeeds, because `getValue` trims the token before the
read-position check. -/
theorem topic_value_trim_counterexample :
    ((" earliest " : String) ≠ "earliest" ∧ (" earliest " : String) ≠ "latest") ∧
    validateArgs ["--topic", " earliest "] = .ok := by
  decide

/-- C2 (the code contradicts it): `getThreads()` is
`parseInt(getValue('threads')) || CONFIG.defaultThreads`, and JavaScript `||`
replaces both `NaN` and `0` by the default `1` *before* the
`isNaN(threads) || threads < 1` validation runs, making those guards
unreachable. Hence `--threads 0` and `--threads abc` pass validation and
yield the default `1` instead of failing with `InvalidThreadCount`;
`--threads 4` behaves as the claim says. -/
theorem threads_validation_at_failing_inputs :
    validateArgs ["--send", "m", "--threads", "0"] = .ok ∧
    getThreads ["--send", "m", "--threads", "0"] = 1 ∧
    validateArgs ["--send", "m", "--threads", "abc"] = .ok ∧
    getThreads ["--send", "m", "--threads", "abc"] = 1 ∧
    validateArgs ["--send", "m", "--threads", "4"] = .ok ∧
    getThreads ["--send", "m", "--threads", "4"] = 4 := by
  decide

/-- Counterexample to C3 as stated: with producer, consumer and client all
created and the producer's `close()` rejecting, `cleanup()` attempts only the
producer close — the consumer was created but its close is never attempted,
and the producer error propagates. The closes are therefore not all attempted
when an earlier close fails, contrary to the claim's best-effort reading. -/
theorem cleanup_abort_counterexample :
    (ManagerState.mk (some .fails) (some .succeeds)
        (some .succeeds)).consumer.isSome = true ∧
    "consumer" ∉ (cleanup ⟨some .fails, some .succeeds, some .succeeds⟩).1 ∧
    (cleanup ⟨some .fails, some .succeeds, some .succeeds⟩).2 =
      some "producer" := by
  decide

/-- C3 (amended): `cleanup()` closes the producer if it was created, then the
consumer/reader if it was created, then the connection if it was opened, each
close a no-op when that resource was never created; calling cleanup when
nothing was created performs no operation and raises no error. However, the
closes are sequential `await`s, not best-effort: when an earlier close fails,
the remaining closes are not attempted and the failure propagates. -/
theorem cleanup_amended (s : ManagerState) :
    cleanup ⟨none, none, none⟩ = ([], none) ∧
    ((cleanup s).2 = none → (cleanup s).1 = expectedCloseOrder s) ∧
    (s.producer = some .fails → cleanup s = (["producer"], some "producer")) ∧
    (s.producer = none → "producer" ∉ (cleanup s).1) ∧
    (s.consumer = none → "consumer" ∉ (cleanup s).1) ∧
    (s.client = none → "client" ∉ (cleanup s).1) := by
  obtain ⟨p, c, k⟩ := s
  rcases p with _ | (_ | _) <;> rcases c with _ | (_ | _) <;>
    rcases k with _ | (_ | _) <;> decide

/-- Witness for C3 (amended): with all three resources created and all closes
succeeding, cleanup closes producer, then consumer, then client. -/
theorem cleanup_amended_witness :
    (cleanup ⟨some .succeeds, some .succeeds, some .succeeds⟩).1 =
      ["producer", "consumer", "client"] := by
  have h := (cleanup_amended
      ⟨some .succeeds, some .succeeds, some .succeeds⟩).2.1 (by decide)
  exact h.trans (by decide)

/-- C6: a supplied `key` flag forces `getSubscriptionType()` to `KeyShared`
for every argument list — regardless of any requested `--type` and of the
mode (the function never looks at the mode) — while without `key` and without
`--type` the default `Exclusive` is returned. (The accompanying console
warning is I/O and is not modelled.) -/
theorem subscriptionType_keyShared (args : List String) :
    (hasParam args .key = true → getSubscriptionType args = .ok "KeyShared") ∧
    (hasParam args .key = false → getValue args .type = none →
      getSubscriptionType args = .ok CONFIG.defaultType) := by
  constructor
  · intro h
    simp [getSubscriptionType, h]
  · intro h ht
    simp [getSubscriptionType, h, ht]

/-- Witness for C6: `--key k1` forces `KeyShared` even with `--type Shared`
supplied and without `--type`; without `key` the default is `Exclusive`. -/
theorem subscriptionType_keyShared_witness :
    getSubscriptionType ["--key", "k1", "--type", "Shared"] = .ok "KeyShared" ∧
    getSubscriptionType ["--key", "k1"] = .ok "KeyShared" ∧
    getSubscriptionType ["--sub", "s1"] = .ok "Exclusive" :=
  ⟨(subscriptionType_keyShared ["--key", "k1", "--type", "Shared"]).1 (by decide),
   (subscriptionType_keyShared ["--key", "k1"]).1 (by decide),
   (subscriptionType_keyShared ["--sub", "s1"]).2 (by decide) (by decide)⟩

/-- C7: when the `--since` value resolves to a numeric epoch-millisecond
timestamp, the created reader seeks to that timestamp when it is strictly in
the past relative to wall-clock `now` at reader creation; otherwise the
reader starts at `latest` with no seek performed — and `createReader` is a
total function, so no error is raised either way. -/
theorem reader_timestamp_semantics (args : List String) (ts now : Int)
    (h : getSinceValue args = some (.num (some ts))) :
    (ts < now → readerCreation args now =
      some { startMessageId := .latest, seek := some ts }) ∧
    (¬ ts < now → readerCreation args now =
      some { startMessageId := .latest, seek := none }) := by
  constructor <;> intro hlt <;> simp [readerCreation, h, createReader, hlt]

/-- Witness for C7: `--since 2999-01-01T00:00:00Z` resolves to the future
timestamp 32472144000000; at a 2025 wall clock the reader starts at `latest`
with no seek. -/
theorem reader_timestamp_semantics_witness :
    readerCreation ["--since", "2999-01-01T00:00:00Z"] 1760000000000 =
      some { startMessageId := .latest, seek := none } :=
  (reader_timestamp_semantics ["--since", "2999-01-01T00:00:00Z"]
      32472144000000 1760000000000 (by decide)).2 (by decide)

/-- C8: for an argument list where `--compression` is given a (trimmed)
nonempty value `v`, `getCompression` returns the uppercase normalization of
`v`; the compression component of `validateSpecificArgs` passes exactly when
the uppercased value is in the fixed enum, and otherwise fails with the
`InvalidCompressionType` error; and whole-argument validation can only
succeed when the uppercased value is in the enum. -/
theorem compression_validation_normalization (args : List String) (v : String)
    (h₁ : getValue args .compression = some v) (h₂ : v ≠ "") :
    getCompression args = jsToUpperCase v ∧
    (compressionCheck args = none ↔
      jsToUpperCase v ∈ CONFIG.validCompressionTypes) ∧
    (jsToUpperCase v ∉ CONFIG.validCompressionTypes →
      compressionCheck args =
        some (.invalidCompressionType (jsToUpperCase v))) ∧
    (validateArgs args = .ok →
      jsToUpperCase v ∈ CONFIG.validCompressionTypes) := by
  have hc : getCompression args = jsToUpperCase v := by
    simp [getCompression, h₁, h₂]
  have hiff : compressionCheck args = none ↔
      jsToUpperCase v ∈ CONFIG.validCompressionTypes := by
    unfold compressionCheck
    rw [hc, jsToUpperCase_idem]
    by_cases hm : jsToUpperCase v ∈ CONFIG.validCompressionTypes
    · simp [hm]
    · simp [hm, jsToUpperCase_ne_empty h₂]
  refine ⟨hc, hiff, ?_, ?_⟩
  · intro hm
    unfold compressionCheck
    rw [hc, jsToUpperCase_idem]
    simp [hm, jsToUpperCase_ne_empty h₂]
  · intro hok
    by_cases hh : hasParam args .help = true
    · simp [validateArgs, hh] at hok
    · by_cases hv2 : hasParam args .version = true
      · simp [validateArgs, hh, hv2] at hok
      · cases hcv : validateCore args with
        | some e => simp [validateArgs, hh, hv2, hcv] at hok
        | none => exact hiff.mp (validateCore_checks args hcv).2.2.2.2.1

/-- Witness for C8: `--compression lz4` normalizes to `LZ4` and passes the
compression check; `--compression FOO` fails it with
`InvalidCompressionType`. -/
theorem compression_validation_normalization_witness :
    getCompression ["--send", "m", "--compression", "lz4"] = "LZ4" ∧
    compressionCheck ["--send", "m", "--compression", "lz4"] = none ∧
    compressionCheck ["--send", "m", "--compression", "FOO"] =
      some (.invalidCompressionType "FOO") := by
  have h₁ := compression_validation_normalization
    ["--send", "m", "--compression", "lz4"] "lz4" (by decide) (by decide)
  have h₂ := compression_validation_normalization
    ["--send", "m", "--compression", "FOO"] "FOO" (by decide) (by decide)
  have e₁ : jsToUpperCase "lz4" = "LZ4" := by decide
  have e₂ : jsToUpperCase "FOO" = "FOO" := by decide
  refine ⟨h₁.1.trans e₁, h₁.2.1.mpr (by decide), ?_⟩
  have h₃ := h₂.2.2.1 (by decide)
  rwa [e₂] at h₃

/-- C9: the persisted namespace is normalized by appending a trailing `/` if
absent and then prefixing `persistent://` if absent, and the full topic name
is the normalized namespace concatenated with the topic suffix — the
`--topic` value when given, the default `pulsar_companion` otherwise. In
particular namespace `tenant/ns` with suffix `orders` yields
`persistent://tenant/ns/orders`. -/
theorem topic_address_construction (ns v : String) (args : List String)
    (h₁ : jsEndsWith ns "/" = false)
    (h₂ : jsStartsWith (ns ++ "/") "persistent://" = false) :
    (getValue args .topic = some v → v ≠ "" →
      getTopicName ns args = "persistent://" ++ (ns ++ "/") ++ v) ∧
    (getValue args .topic = none →
      getTopicName ns args =
        "persistent://" ++ (ns ++ "/") ++ CONFIG.defaultTopic) := by
  have hnorm : normalizeNamespace ns = "persistent://" ++ (ns ++ "/") := by
    unfold normalizeNamespace
    simp [h₁, h₂]
  constructor
  · intro ht hne
    simp [getTopicName, ht, hne, hnorm]
  · intro ht
    simp [getTopicName, ht, hnorm]

/-- Witness for C9: namespace `tenant/ns` plus `--topic orders` yields
`persistent://tenant/ns/orders`. -/
theorem topic_address_construction_witness :
    getTopicName "tenant/ns" ["--topic", "orders"] =
      "persistent://tenant/ns/orders" := by
  have h := (topic_address_construction "tenant/ns" "orders"
      ["--topic", "orders"] (by decide) (by decide)).1 (by decide) (by decide)
  exact h.trans (by decide)

/-- C10: in every iteration of the receive loop, an error named
`TimeoutError` neither terminates the loop nor surfaces — the loop's result
on a trace beginning with a timeout is exactly its result on the rest of the
trace, i.e. it immediately attempts the next receive; an error with any other
name terminates the loop at once and propagates. -/
theorem receive_loop_timeout_tolerance {μ : Type}
    (rest : List (RecvEvent μ)) (n : String) :
    receiveMessages (.err "TimeoutError" :: rest) = receiveMessages rest ∧
    (n ≠ "TimeoutError" →
      receiveMessages (.err n :: rest) = ([], some n)) := by
  constructor
  · simp [receiveMessages]
  · intro h
    simp [receiveMessages, h]

/-- Witness for C10: a timeout is swallowed and the following messages are
still handled with the loop running; a differently-named error terminates
the loop and propagates. -/
theorem receive_loop_timeout_tolerance_witness :
    receiveMessages [RecvEvent.err "TimeoutError", .msg (5 : Nat), .msg 6] =
      ([5, 6], none) ∧
    receiveMessages [RecvEvent.err "SomeOtherError", .msg (5 : Nat)] =
      ([], some "SomeOtherError") := by
  constructor
  · exact (receive_loop_timeout_tolerance
      [RecvEvent.msg (5 : Nat), .msg 6] "x").1.trans (by decide)
  · exact (receive_loop_timeout_tolerance
      [RecvEvent.msg (5 : Nat)] "SomeOtherError").2 (by decide)

end PulsarCompanion
